import Mathlib

/-!
Shallow embedding of the schema-validation core of the `pavise` repository
(`src/patrol/validators.py`, `src/patrol/_pandas/validation.py`,
`src/patrol/_pandas/validator_impl.py`, `src/patrol/_polars/validation.py`,
`src/patrol/_polars/validator_impl.py`, `src/pavise/polars.py`).

Cell values are modelled as rationals or strings (`Cell`): the totally
ordered, equality-comparable value domains the validators exercise.
Column dtypes are modelled per backend as small inductive types covering
the dtypes the validation code distinguishes.  Error messages are modelled
structurally: each error constructor carries the column name (and bounds)
that the corresponding Python message interpolates.
-/

/-- A materialized cell value: a number (ints and floats are both ordered
numerics; modelled as rationals) or a string.  A missing entry (null / NaN /
None) is `Option.none` around this type. -/
inductive Cell where
  | num (q : ℚ)
  | str (s : String)
deriving DecidableEq

/-- The validator specs of `patrol/validators.py`: the dataclasses
`Range(min, max)` and `Unique()`.  These are the only validator kinds the
module defines. -/
inductive Validator where
  | range (min max : ℚ)
  | unique
deriving DecidableEq

/-- The supported Python base types: the exact key set of the `TYPE_CHECKERS`
dict in both backends (`int`, `float`, `str`, `bool`, `datetime`, `date`,
`timedelta`). -/
inductive PyBase where
  | int
  | float
  | str
  | bool
  | datetime
  | date
  | timedelta
deriving DecidableEq

/-- A schema column annotation, as `_extract_type_and_validators` sees it
(both backends' files hold the same function).  `base` is a concrete Python
type from `TYPE_CHECKERS`; `native d` is a backend-native dtype declaration
(`pd.api.extensions.ExtensionDtype` subclass resp. `pl.DataType` subclass),
with the native dtype universe `δ` supplied per backend; `annotated inner vs`
is `Annotated[inner, *vs]` (Python flattens directly nested `Annotated`, so
`inner` is never itself `annotated` for a real annotation); `optional inner`
is `Optional[inner]`, i.e. the two-armed `Union[inner, None]`. -/
inductive Ann (δ : Type) where
  | base (b : PyBase)
  | native (d : δ)
  | annotated (inner : Ann δ) (vs : List Validator)
  | optional (inner : Ann δ)
deriving DecidableEq

/-- `_extract_type_and_validators` (identical in
`_pandas/validation.py` and `_polars/validation.py`): if the annotation is
`Annotated[...]`, strip that one wrapper, keeping its metadata as the
validator list; then, if the result is a two-armed `Union` containing
`None`, return its other arm with `is_optional = True`; otherwise return the
(possibly stripped) annotation with `is_optional = False`.  There is no
repetition: each wrapper is unwrapped at most once. -/
def extract_type_and_validators {δ : Type} (a : Ann δ) :
    Ann δ × List Validator × Bool :=
  let stripped : Ann δ × List Validator :=
    match a with
    | .annotated inner vs => (inner, vs)
    | other => (other, [])
  match stripped.1 with
  | .optional inner => (inner, stripped.2, true)
  | other => (other, stripped.2, false)

/-- The validation errors, modelled structurally.  Each constructor carries
what the Python error message interpolates: `missingColumn c` is
`ValueError(f"Missing column: {c}")`, `typeMismatch c` the
`TypeError(f"Column '{c}' expected ..., got ...")` family, `unsupportedType`
is `ValueError(f"Unsupported type: ...")`, `nullViolation c` is
`TypeError(f"Column '{c}' is non-optional but contains null values")`,
`rangeViolation c lo hi` is
`ValueError(f"Column '{c}': values must be in range [{lo}, {hi}]")`,
`duplicateValues c` is `ValueError(f"Column '{c}': contains duplicate
values")`, and `unexpectedColumns cs` the strict-mode unexpected-columns
error. -/
inductive VErr where
  | missingColumn (name : String)
  | typeMismatch (name : String)
  | unsupportedType
  | nullViolation (name : String)
  | rangeViolation (name : String) (lo hi : ℚ)
  | duplicateValues (name : String)
  | unexpectedColumns (names : List String)
deriving DecidableEq

/-- Column lookup in a frame held as an ordered association list of
uniquely named columns: `none` exactly when `col_name not in df.columns`,
otherwise the column `df[col_name]`. -/
def lookupCol {γ : Type} : List (String × γ) → String → Option γ
  | [], _ => none
  | (n, c) :: rest, m => if n = m then some c else lookupCol rest m

/-- Elementwise `(series < bound)` for one cell.  Numbers compare
numerically; a null entry never compares (handled by the caller). -/
def cell_lt (c : Cell) (q : ℚ) : Bool :=
  match c with
  | .num x => decide (x < q)
  | .str _ => false

/-- Elementwise `(series > bound)` for one cell. -/
def cell_gt (c : Cell) (q : ℚ) : Bool :=
  match c with
  | .num x => decide (q < x)
  | .str _ => false

/-- `(series < bound).any()`: true when some non-null entry compares below
the bound; null entries contribute nothing (NaN comparisons are `False` in
pandas, and polars' `any()` ignores nulls). -/
def series_lt_any (values : List (Option Cell)) (q : ℚ) : Bool :=
  values.any (fun v =>
    match v with
    | some c => cell_lt c q
    | none => false)

/-- `(series > bound).any()`, with nulls contributing nothing. -/
def series_gt_any (values : List (Option Cell)) (q : ℚ) : Bool :=
  values.any (fun v =>
    match v with
    | some c => cell_gt c q
    | none => false)

/-- `series.duplicated().any()` (pandas) and `series.is_duplicated().any()`
(polars): true when some entry occurs more than once in the column.  Both
libraries compare null entries equal to each other here (pandas'
hash-based `duplicated` treats NaN/None as one value; polars groups nulls
together in `is_duplicated`), so two nulls count as duplicates. -/
def duplicated_any (values : List (Option Cell)) : Bool :=
  values.any (fun v =>
    decide (2 ≤ values.countP (fun w => decide (w = v))))

/-- Sequencing of two validation steps with exception propagation: the
second step runs only when the first raised nothing, exactly as consecutive
Python statements behave under exceptions. -/
def stopOnError : Except VErr Unit → Except VErr Unit → Except VErr Unit
  | .ok _, k => k
  | .error e, _ => .error e

namespace Pandas

/-- The pandas extension dtypes the repository declares natively
(`pd.CategoricalDtype`, `pd.Int64Dtype` in the tests). -/
inductive PdExt where
  | categoricalDtype
  | int64Dtype
deriving DecidableEq

/-- The pandas column dtypes the validation code distinguishes. -/
inductive PdDtype where
  | int64
  | float64
  | objectD
  | boolD
  | datetime64
  | timedelta64
  | ext (e : PdExt)
deriving DecidableEq

/-- A pandas column: its dtype and its materialized values. -/
structure PdColumn where
  dtype : PdDtype
  values : List (Option Cell)
deriving DecidableEq

/-- `pd.api.types.is_integer_dtype` on the column (nullable `Int64`
extension columns are integer dtypes too). -/
def is_integer_dtype (col : PdColumn) : Bool :=
  match col.dtype with
  | .int64 => true
  | .ext .int64Dtype => true
  | _ => false

/-- `pd.api.types.is_float_dtype` of a dtype. -/
def is_float_dtype (d : PdDtype) : Bool :=
  match d with
  | .float64 => true
  | _ => false

/-- `pd.api.types.is_string_dtype` on the column: for an `object`-dtype
column it holds exactly when every element is a (non-null) string, matching
the repository's own tests (a str column containing `None` is rejected by
the dtype check). -/
def is_string_dtype (col : PdColumn) : Bool :=
  match col.dtype with
  | .objectD =>
      col.values.all (fun v =>
        match v with
        | some (.str _) => true
        | _ => false)
  | _ => false

/-- `pd.api.types.is_bool_dtype` on the column. -/
def is_bool_dtype (col : PdColumn) : Bool :=
  match col.dtype with
  | .boolD => true
  | _ => false

/-- `pd.api.types.is_datetime64_any_dtype` on the column. -/
def is_datetime64_any_dtype (col : PdColumn) : Bool :=
  match col.dtype with
  | .datetime64 => true
  | _ => false

/-- `pd.api.types.is_timedelta64_dtype` on the column. -/
def is_timedelta64_dtype (col : PdColumn) : Bool :=
  match col.dtype with
  | .timedelta64 => true
  | _ => false

/-- The `TYPE_CHECKERS` dict of `_pandas/validation.py`, as a total map on
the supported base types (`date` and `datetime` share
`is_datetime64_any_dtype`). -/
def type_checkers (b : PyBase) (col : PdColumn) : Bool :=
  match b with
  | .int => is_integer_dtype col
  | .float => is_float_dtype col.dtype
  | .str => is_string_dtype col
  | .bool => is_bool_dtype col
  | .datetime => is_datetime64_any_dtype col
  | .date => is_datetime64_any_dtype col
  | .timedelta => is_timedelta64_dtype col

/-- Python's `isinstance(col_dtype, object)`, the test of the str leniency
branch: every Python value is an instance of `object`, so this is constantly
true whatever the dtype. -/
def isinstance_object (_d : PdDtype) : Bool := true

/-- `_validate_range` of `_pandas/validator_impl.py`:
`(series < min).any() or (series > max).any()` raises the range error. -/
def validate_range (values : List (Option Cell)) (lo hi : ℚ)
    (name : String) : Except VErr Unit :=
  if series_lt_any values lo || series_gt_any values hi then
    .error (.rangeViolation name lo hi)
  else
    .ok ()

/-- `_validate_unique` of `_pandas/validator_impl.py`:
`series.duplicated().any()` raises the duplicate-values error. -/
def validate_unique (values : List (Option Cell)) (name : String) :
    Except VErr Unit :=
  if duplicated_any values then
    .error (.duplicateValues name)
  else
    .ok ()

/-- `apply_validator` of `_pandas/validator_impl.py`: dispatch on the
validator kind (the `Range` and `Unique` dataclasses are the only validator
kinds defined, so the unknown-validator branch is unreachable here). -/
def apply_validator (values : List (Option Cell)) (v : Validator)
    (name : String) : Except VErr Unit :=
  match v with
  | .range lo hi => validate_range values lo hi name
  | .unique => validate_unique values name

/-- The `for validator in validators: apply_validator(...)` loop: apply the
validators in order, stopping at the first failure. -/
def apply_validators (values : List (Option Cell)) (vs : List Validator)
    (name : String) : Except VErr Unit :=
  match vs with
  | [] => .ok ()
  | v :: rest =>
    stopOnError (apply_validator values v name)
      (apply_validators values rest name)

/-- The body of `_check_column_type` of `_pandas/validation.py` after the
call to `_extract_type_and_validators`, with the decomposition passed in:
a native `ExtensionDtype` declaration requires exact dtype-class identity;
a base type outside `TYPE_CHECKERS` is unsupported; otherwise the type
checker runs, with the two leniency branches (`is_optional` and declared
`int` with a float dtype; `is_optional` and declared `str` with
`isinstance(col_dtype, object)`), and the validators run on every passing
path. -/
def check_column_type_core (col : PdColumn) (name : String)
    (base : Ann PdExt) (validators : List Validator) (is_optional : Bool) :
    Except VErr Unit :=
  match base with
  | .native e =>
    if col.dtype = PdDtype.ext e then
      apply_validators col.values validators name
    else
      .error (.typeMismatch name)
  | .base b =>
    if type_checkers b col then
      apply_validators col.values validators name
    else if is_optional && decide (b = PyBase.int) && is_float_dtype col.dtype then
      apply_validators col.values validators name
    else if is_optional && decide (b = PyBase.str) && isinstance_object col.dtype then
      apply_validators col.values validators name
    else
      .error (.typeMismatch name)
  | _ => .error .unsupportedType

/-- `_check_column_type` of `_pandas/validation.py`. -/
def check_column_type (col : PdColumn) (name : String) (ann : Ann PdExt) :
    Except VErr Unit :=
  check_column_type_core col name
    (extract_type_and_validators ann).1
    (extract_type_and_validators ann).2.1
    (extract_type_and_validators ann).2.2

/-- One loop iteration of `validate_dataframe` of `_pandas/validation.py`:
`_check_column_exists(df, col_name)` (raise the missing-column error when
`col_name not in df.columns`) then `_check_column_type(df, col_name,
col_type)` on the column. -/
def check_column (df : List (String × PdColumn)) (n : String)
    (a : Ann PdExt) : Except VErr Unit :=
  match lookupCol df n with
  | none => .error (.missingColumn n)
  | some col => check_column_type col n a

/-- `validate_dataframe` of `_pandas/validation.py`: for each declared
column in schema order, check its presence and its type, stopping at the
first raised error. -/
def validate_dataframe (df : List (String × PdColumn))
    (schema : List (String × Ann PdExt)) : Except VErr Unit :=
  match schema with
  | [] => .ok ()
  | (n, a) :: rest =>
    stopOnError (check_column df n a) (validate_dataframe df rest)

end Pandas

namespace Polars

/-- Polars time units (`ms`, `us`, `ns`), carried by `Datetime` and
`Duration` dtypes. -/
inductive TimeUnit where
  | ms
  | us
  | ns
deriving DecidableEq

/-- The polars column dtypes the validation code distinguishes. -/
inductive PlDtype where
  | int8
  | int16
  | int32
  | int64
  | uint8
  | uint16
  | uint32
  | uint64
  | float32
  | float64
  | utf8
  | boolean
  | datetime (tu : TimeUnit)
  | date
  | duration (tu : TimeUnit)
  | categorical
deriving DecidableEq

/-- A polars column: its dtype and its materialized values. -/
structure PlColumn where
  dtype : PlDtype
  values : List (Option Cell)
deriving DecidableEq

/-- `series.null_count()`: how many entries of the column are null. -/
def null_count (values : List (Option Cell)) : Nat :=
  values.countP (fun v => v.isNone)

/-- `hasattr(dtype, "time_unit")`: exactly the `Datetime` and `Duration`
dtypes carry a `time_unit` attribute in polars. -/
def has_time_unit_attr (d : PlDtype) : Bool :=
  match d with
  | .datetime _ => true
  | .duration _ => true
  | _ => false

/-- Polars dtype equality against a dtype class (`dtype == pl.Datetime`,
`dtype == pl.Duration`, ...): parametrized dtypes compare equal to their
class for every parameter value. -/
def class_eq (a b : PlDtype) : Bool :=
  match a, b with
  | .datetime _, .datetime _ => true
  | .duration _, .duration _ => true
  | x, y => decide (x = y)

/-- `_is_datetime_dtype` of `_polars/validation.py`: true when
`dtype == pl.Datetime` (any time unit), or when the dtype exposes a
`time_unit` attribute; false otherwise. -/
def is_datetime_dtype (d : PlDtype) : Bool :=
  if (match d with | .datetime _ => true | _ => false) then true
  else if has_time_unit_attr d then true
  else false

/-- The `TYPE_CHECKERS` dict of `_polars/validation.py`, as a total map on
the supported base types: `int` accepts the eight integer widths, `float`
the two float widths, `str` is `Utf8`, `bool` is `Boolean`, `datetime` is
`_is_datetime_dtype`, `date` is exactly `pl.Date`, and `timedelta` is
`dtype == pl.Duration` (any time unit). -/
def type_checkers (b : PyBase) (d : PlDtype) : Bool :=
  match b with
  | .int =>
    match d with
    | .int8 | .int16 | .int32 | .int64
    | .uint8 | .uint16 | .uint32 | .uint64 => true
    | _ => false
  | .float =>
    match d with
    | .float32 | .float64 => true
    | _ => false
  | .str => decide (d = PlDtype.utf8)
  | .bool => decide (d = PlDtype.boolean)
  | .datetime => is_datetime_dtype d
  | .date => decide (d = PlDtype.date)
  | .timedelta =>
    match d with
    | .duration _ => true
    | _ => false

/-- `_validate_range` of `_polars/validator_impl.py`:
`(series < min).any() or (series > max).any()` raises the range error
(nulls compare to null and are ignored by `any()`). -/
def validate_range (values : List (Option Cell)) (lo hi : ℚ)
    (name : String) : Except VErr Unit :=
  if series_lt_any values lo || series_gt_any values hi then
    .error (.rangeViolation name lo hi)
  else
    .ok ()

/-- `_validate_unique` of `_polars/validator_impl.py`:
`series.is_duplicated().any()` raises the duplicate-values error. -/
def validate_unique (values : List (Option Cell)) (name : String) :
    Except VErr Unit :=
  if duplicated_any values then
    .error (.duplicateValues name)
  else
    .ok ()

/-- `apply_validator` of `_polars/validator_impl.py`: dispatch on the
validator kind. -/
def apply_validator (values : List (Option Cell)) (v : Validator)
    (name : String) : Except VErr Unit :=
  match v with
  | .range lo hi => validate_range values lo hi name
  | .unique => validate_unique values name

/-- The `for validator in validators: apply_validator(...)` loop of the
polars backend. -/
def apply_validators (values : List (Option Cell)) (vs : List Validator)
    (name : String) : Except VErr Unit :=
  match vs with
  | [] => .ok ()
  | v :: rest =>
    stopOnError (apply_validator values v name)
      (apply_validators values rest name)

/-- The body of `_check_column_type` of `_polars/validation.py` after the
call to `_extract_type_and_validators`: a native `pl.DataType` declaration
requires dtype equality with the declared class; a base type outside
`TYPE_CHECKERS` is unsupported; otherwise the dtype checker runs, then the
nullability check (`not is_optional and series.null_count() > 0` raises the
non-optional-null error), then the validators. -/
def check_column_type_core (col : PlColumn) (name : String)
    (base : Ann PlDtype) (validators : List Validator) (is_optional : Bool) :
    Except VErr Unit :=
  match base with
  | .native d =>
    if class_eq col.dtype d then
      apply_validators col.values validators name
    else
      .error (.typeMismatch name)
  | .base b =>
    if type_checkers b col.dtype then
      if !is_optional && decide (0 < null_count col.values) then
        .error (.nullViolation name)
      else
        apply_validators col.values validators name
    else
      .error (.typeMismatch name)
  | _ => .error .unsupportedType

/-- `_check_column_type` of `_polars/validation.py`. -/
def check_column_type (col : PlColumn) (name : String) (ann : Ann PlDtype) :
    Except VErr Unit :=
  check_column_type_core col name
    (extract_type_and_validators ann).1
    (extract_type_and_validators ann).2.1
    (extract_type_and_validators ann).2.2

/-- One loop iteration of `validate_dataframe` of `_polars/validation.py`:
`_check_column_exists` then `_check_column_type` on the column. -/
def check_column (df : List (String × PlColumn)) (n : String)
    (a : Ann PlDtype) : Except VErr Unit :=
  match lookupCol df n with
  | none => .error (.missingColumn n)
  | some col => check_column_type col n a

/-- `validate_dataframe` of `_polars/validation.py`: for each declared
column in schema order, check its presence and its type, stopping at the
first raised error. -/
def validate_dataframe (df : List (String × PlColumn))
    (schema : List (String × Ann PlDtype)) : Except VErr Unit :=
  match schema with
  | [] => .ok ()
  | (n, a) :: rest =>
    stopOnError (check_column df n a) (validate_dataframe df rest)

/-- Modelled from the spec: the strict-mode wrapper of the polars
`validate_dataframe` called by `pavise/polars.py` `DataFrame.__init__`
(the called module `pavise._polars.validation` is not under `src/`; only
its caller is).  Per spec §4.4: run the per-column validation; if
`strict=true` and it passed, collect the table columns not named in the
schema and, if any exist, fail naming the full list of unexpected
columns. -/
def validate_dataframe_strict (df : List (String × PlColumn))
    (schema : List (String × Ann PlDtype)) (strict : Bool) :
    Except VErr Unit :=
  match validate_dataframe df schema with
  | .error e => .error e
  | .ok _ =>
    if strict then
      let unexpected :=
        (df.map Prod.fst).filter
          (fun n => !((schema.map Prod.fst).contains n))
      if unexpected.isEmpty then .ok ()
      else .error (.unexpectedColumns unexpected)
    else
      .ok ()

end Polars

/-! ## Satisfaction predicates used by the claims' hypotheses -/

/-- A cell respects the inclusive bounds of a `Range(min, max)` validator:
a null entry is ignored, a numeric entry must lie in `[lo, hi]`, and a
string entry never satisfies a numeric range. -/
def cell_in_range (lo hi : ℚ) (v : Option Cell) : Bool :=
  match v with
  | none => true
  | some (.num q) => decide (lo ≤ q) && decide (q ≤ hi)
  | some (.str _) => false

/-- A column's values satisfy one attached validator: for `Range(min, max)`
every non-null value is a number within the inclusive bounds; for `Unique()`
no entry occurs twice (nulls compare equal to each other, matching the
backends' duplicate detection). -/
def validator_holds (values : List (Option Cell)) : Validator → Prop
  | .range lo hi => ∀ v ∈ values, cell_in_range lo hi v = true
  | .unique => values.Nodup

instance (values : List (Option Cell)) (v : Validator) :
    Decidable (validator_holds values v) :=
  match v with
  | .range lo hi =>
    inferInstanceAs (Decidable (∀ x ∈ values, cell_in_range lo hi x = true))
  | .unique => inferInstanceAs (Decidable values.Nodup)

/-- The column contains no null entry. -/
def has_no_null (values : List (Option Cell)) : Bool :=
  values.all (fun v => v.isSome)

/-- The pandas-side compatibility of a column with a decomposed base-type
annotation: a supported Python base type must pass its `TYPE_CHECKERS`
predicate on the column; a native extension-dtype declaration must be the
exact dtype class of the column; any other decomposition result (a leftover
`Annotated`/`Optional` nesting) is incompatible. -/
def pd_base_compatible (col : Pandas.PdColumn) : Ann Pandas.PdExt → Bool
  | .base b => Pandas.type_checkers b col
  | .native e => decide (col.dtype = Pandas.PdDtype.ext e)
  | _ => false

/-- The polars-side compatibility of a column dtype with a decomposed
base-type annotation. -/
def pl_base_compatible (col : Polars.PlColumn) : Ann Polars.PlDtype → Bool
  | .base b => Polars.type_checkers b col.dtype
  | .native d => Polars.class_eq col.dtype d
  | _ => false

/-- A pandas column conforms to its declaration: the declared base type is
compatible with the column, a non-`Optional` declaration sees no null, and
every attached validator is satisfied. -/
def pd_column_conforms (col : Pandas.PdColumn) (ann : Ann Pandas.PdExt) :
    Prop :=
  pd_base_compatible col (extract_type_and_validators ann).1 = true ∧
  ((extract_type_and_validators ann).2.2 = false →
    has_no_null col.values = true) ∧
  (∀ v ∈ (extract_type_and_validators ann).2.1, validator_holds col.values v)

/-- A polars column conforms to its declaration. -/
def pl_column_conforms (col : Polars.PlColumn) (ann : Ann Polars.PlDtype) :
    Prop :=
  pl_base_compatible col (extract_type_and_validators ann).1 = true ∧
  ((extract_type_and_validators ann).2.2 = false →
    has_no_null col.values = true) ∧
  (∀ v ∈ (extract_type_and_validators ann).2.1, validator_holds col.values v)

instance {ε α : Type} [DecidableEq ε] [DecidableEq α] :
    DecidableEq (Except ε α) := fun a b =>
  match a, b with
  | .ok x, .ok y =>
    if h : x = y then .isTrue (by rw [h]) else .isFalse (by simp [h])
  | .error e, .error f =>
    if h : e = f then .isTrue (by rw [h]) else .isFalse (by simp [h])
  | .ok _, .error _ => .isFalse (by simp)
  | .error _, .ok _ => .isFalse (by simp)

instance (col : Pandas.PdColumn) (ann : Ann Pandas.PdExt) :
    Decidable (pd_column_conforms col ann) := by
  unfold pd_column_conforms
  infer_instance

instance (col : Polars.PlColumn) (ann : Ann Polars.PlDtype) :
    Decidable (pl_column_conforms col ann) := by
  unfold pl_column_conforms
  infer_instance

/-! ## Helper lemmas -/

theorem countP_decide_eq_count [inst : BEq (Option Cell)]
    [LawfulBEq (Option Cell)] (values : List (Option Cell))
    (v : Option Cell) :
    values.countP (fun w => decide (w = v)) = values.count v := by
  rw [List.count_eq_countP]
  apply List.countP_congr
  intro x _
  constructor
  · intro h
    exact beq_of_eq (of_decide_eq_true h)
  · intro h
    exact decide_eq_true (eq_of_beq h)

theorem duplicated_any_eq_true_iff (values : List (Option Cell)) :
    duplicated_any values = true ↔ ¬ values.Nodup := by
  unfold duplicated_any
  rw [List.any_eq_true, List.nodup_iff_count_le_one]
  push_neg
  constructor
  · rintro ⟨v, _, hv⟩
    rw [decide_eq_true_eq] at hv
    refine ⟨v, ?_⟩
    rw [← @countP_decide_eq_count instBEqOfDecidableEq _ values v]
    omega
  · rintro ⟨v, hv⟩
    rw [← @countP_decide_eq_count instBEqOfDecidableEq _ values v] at hv
    have hmem : v ∈ values := by
      have hpos : 0 < values.countP (fun w => decide (w = v)) := by omega
      rw [List.countP_pos_iff] at hpos
      obtain ⟨a, ha, hav⟩ := hpos
      rw [decide_eq_true_eq] at hav
      exact hav ▸ ha
    exact ⟨v, hmem, decide_eq_true (by omega)⟩

theorem pd_apply_validator_ok (values : List (Option Cell)) (v : Validator)
    (name : String) (h : validator_holds values v) :
    Pandas.apply_validator values v name = .ok () := by
  cases v with
  | range lo hi =>
    have hlt : series_lt_any values lo = false := by
      unfold series_lt_any
      rw [List.any_eq_false]
      intro x hx
      have hc := h x hx
      cases x with
      | none => simp
      | some c =>
        cases c with
        | num q =>
          simp only [cell_in_range, Bool.and_eq_true, decide_eq_true_eq] at hc
          simp only [cell_lt, decide_eq_true_eq]
          exact not_lt.mpr hc.1
        | str s => simp [cell_in_range] at hc
    have hgt : series_gt_any values hi = false := by
      unfold series_gt_any
      rw [List.any_eq_false]
      intro x hx
      have hc := h x hx
      cases x with
      | none => simp
      | some c =>
        cases c with
        | num q =>
          simp only [cell_in_range, Bool.and_eq_true, decide_eq_true_eq] at hc
          simp only [cell_gt, decide_eq_true_eq]
          exact not_lt.mpr hc.2
        | str s => simp [cell_in_range] at hc
    simp only [Pandas.apply_validator, Pandas.validate_range, hlt, hgt]
    simp
  | unique =>
    have hdup : duplicated_any values = false := by
      rw [← Bool.not_eq_true, duplicated_any_eq_true_iff]
      simpa using h
    simp only [Pandas.apply_validator, Pandas.validate_unique, hdup]
    simp

theorem pl_apply_validator_ok (values : List (Option Cell)) (v : Validator)
    (name : String) (h : validator_holds values v) :
    Polars.apply_validator values v name = .ok () := by
  have hpd := pd_apply_validator_ok values v name h
  cases v with
  | range lo hi =>
    unfold Pandas.apply_validator Pandas.validate_range at hpd
    unfold Polars.apply_validator Polars.validate_range
    exact hpd
  | unique =>
    unfold Pandas.apply_validator Pandas.validate_unique at hpd
    unfold Polars.apply_validator Polars.validate_unique
    exact hpd

theorem pd_apply_validators_ok (values : List (Option Cell))
    (vs : List Validator) (name : String)
    (h : ∀ v ∈ vs, validator_holds values v) :
    Pandas.apply_validators values vs name = .ok () := by
  induction vs with
  | nil => rfl
  | cons v rest ih =>
    show stopOnError (Pandas.apply_validator values v name)
      (Pandas.apply_validators values rest name) = .ok ()
    rw [pd_apply_validator_ok values v name (h v (by simp))]
    simp only [stopOnError]
    exact ih (fun w hw => h w (by simp [hw]))

theorem pl_apply_validators_ok (values : List (Option Cell))
    (vs : List Validator) (name : String)
    (h : ∀ v ∈ vs, validator_holds values v) :
    Polars.apply_validators values vs name = .ok () := by
  induction vs with
  | nil => rfl
  | cons v rest ih =>
    show stopOnError (Polars.apply_validator values v name)
      (Polars.apply_validators values rest name) = .ok ()
    rw [pl_apply_validator_ok values v name (h v (by simp))]
    simp only [stopOnError]
    exact ih (fun w hw => h w (by simp [hw]))

theorem pd_check_column_type_ok (col : Pandas.PdColumn) (name : String)
    (ann : Ann Pandas.PdExt) (h : pd_column_conforms col ann) :
    Pandas.check_column_type col name ann = .ok () := by
  obtain ⟨hbase, _, hvs⟩ := h
  unfold Pandas.check_column_type Pandas.check_column_type_core
  cases hb : (extract_type_and_validators ann).1 with
  | base b =>
    rw [hb] at hbase
    simp only [pd_base_compatible] at hbase
    simp only [hb, hbase, if_true]
    exact pd_apply_validators_ok _ _ _ hvs
  | native e =>
    rw [hb] at hbase
    simp only [pd_base_compatible, decide_eq_true_eq] at hbase
    simp only [hb, hbase, if_true, if_pos]
    exact pd_apply_validators_ok _ _ _ hvs
  | annotated inner vs =>
    rw [hb] at hbase
    simp [pd_base_compatible] at hbase
  | optional inner =>
    rw [hb] at hbase
    simp [pd_base_compatible] at hbase

theorem pl_check_column_type_ok (col : Polars.PlColumn) (name : String)
    (ann : Ann Polars.PlDtype) (h : pl_column_conforms col ann) :
    Polars.check_column_type col name ann = .ok () := by
  obtain ⟨hbase, hnull, hvs⟩ := h
  unfold Polars.check_column_type Polars.check_column_type_core
  cases hb : (extract_type_and_validators ann).1 with
  | base b =>
    rw [hb] at hbase
    simp only [pl_base_compatible] at hbase
    simp only [hb, hbase, if_true]
    have hnc : (!(extract_type_and_validators ann).2.2 &&
        decide (0 < Polars.null_count col.values)) = false := by
      cases hopt : (extract_type_and_validators ann).2.2 with
      | true => simp
      | false =>
        have hnn := hnull hopt
        have hz : Polars.null_count col.values = 0 := by
          unfold Polars.null_count
          rw [List.countP_eq_zero]
          intro v hv
          unfold has_no_null at hnn
          rw [List.all_eq_true] at hnn
          have hs := hnn v hv
          cases v with
          | none => simp at hs
          | some c => simp
        simp [hz]
    rw [hnc]
    simp only [if_false, Bool.false_eq_true]
    exact pl_apply_validators_ok _ _ _ hvs
  | native d =>
    rw [hb] at hbase
    simp only [pl_base_compatible] at hbase
    simp only [hb, hbase, if_true]
    exact pl_apply_validators_ok _ _ _ hvs
  | annotated inner vs =>
    rw [hb] at hbase
    simp [pl_base_compatible] at hbase
  | optional inner =>
    rw [hb] at hbase
    simp [pl_base_compatible] at hbase

theorem pd_check_column_some (df : List (String × Pandas.PdColumn))
    (n : String) (col : Pandas.PdColumn) (a : Ann Pandas.PdExt)
    (h : lookupCol df n = some col) :
    Pandas.check_column df n a = Pandas.check_column_type col n a := by
  unfold Pandas.check_column
  rw [h]

theorem pd_check_column_none (df : List (String × Pandas.PdColumn))
    (n : String) (a : Ann Pandas.PdExt) (h : lookupCol df n = none) :
    Pandas.check_column df n a = .error (.missingColumn n) := by
  unfold Pandas.check_column
  rw [h]

theorem pl_check_column_some (df : List (String × Polars.PlColumn))
    (n : String) (col : Polars.PlColumn) (a : Ann Polars.PlDtype)
    (h : lookupCol df n = some col) :
    Polars.check_column df n a = Polars.check_column_type col n a := by
  unfold Polars.check_column
  rw [h]

theorem pl_check_column_none (df : List (String × Polars.PlColumn))
    (n : String) (a : Ann Polars.PlDtype) (h : lookupCol df n = none) :
    Polars.check_column df n a = .error (.missingColumn n) := by
  unfold Polars.check_column
  rw [h]

theorem pd_validate_dataframe_ok (df : List (String × Pandas.PdColumn))
    (schema : List (String × Ann Pandas.PdExt))
    (h : ∀ p ∈ schema, ∃ col, lookupCol df p.1 = some col ∧
      pd_column_conforms col p.2) :
    Pandas.validate_dataframe df schema = .ok () := by
  induction schema with
  | nil => rfl
  | cons p rest ih =>
    cases p with
    | mk n a =>
      obtain ⟨col, hcol, hconf⟩ := h (n, a) (by simp)
      show stopOnError (Pandas.check_column df n a)
        (Pandas.validate_dataframe df rest) = .ok ()
      rw [pd_check_column_some df n col a hcol,
        pd_check_column_type_ok col n a hconf]
      simp only [stopOnError]
      exact ih (fun q hq => h q (by simp [hq]))

theorem pl_validate_dataframe_ok (df : List (String × Polars.PlColumn))
    (schema : List (String × Ann Polars.PlDtype))
    (h : ∀ p ∈ schema, ∃ col, lookupCol df p.1 = some col ∧
      pl_column_conforms col p.2) :
    Polars.validate_dataframe df schema = .ok () := by
  induction schema with
  | nil => rfl
  | cons p rest ih =>
    cases p with
    | mk n a =>
      obtain ⟨col, hcol, hconf⟩ := h (n, a) (by simp)
      show stopOnError (Polars.check_column df n a)
        (Polars.validate_dataframe df rest) = .ok ()
      rw [pl_check_column_some df n col a hcol,
        pl_check_column_type_ok col n a hconf]
      simp only [stopOnError]
      exact ih (fun q hq => h q (by simp [hq]))

theorem pd_validate_append_missing (df : List (String × Pandas.PdColumn))
    (pre post : List (String × Ann Pandas.PdExt)) (c : String)
    (ann : Ann Pandas.PdExt)
    (hpre : Pandas.validate_dataframe df pre = .ok ())
    (hc : lookupCol df c = none) :
    Pandas.validate_dataframe df (pre ++ (c, ann) :: post) =
      .error (.missingColumn c) := by
  induction pre with
  | nil =>
    rw [List.nil_append]
    show stopOnError (Pandas.check_column df c ann)
      (Pandas.validate_dataframe df post) = .error (.missingColumn c)
    rw [pd_check_column_none df c ann hc]
    rfl
  | cons p rest ih =>
    cases p with
    | mk n a =>
      rw [List.cons_append]
      show stopOnError (Pandas.check_column df n a)
        (Pandas.validate_dataframe df (rest ++ (c, ann) :: post)) =
        .error (.missingColumn c)
      have hpre' : stopOnError (Pandas.check_column df n a)
        (Pandas.validate_dataframe df rest) = .ok () := hpre
      cases hs : Pandas.check_column df n a with
      | error e =>
        rw [hs] at hpre'
        exact absurd hpre' (by simp [stopOnError])
      | ok u =>
        rw [hs] at hpre'
        simp only [stopOnError] at hpre' ⊢
        exact ih hpre'

theorem pl_validate_append_missing (df : List (String × Polars.PlColumn))
    (pre post : List (String × Ann Polars.PlDtype)) (c : String)
    (ann : Ann Polars.PlDtype)
    (hpre : Polars.validate_dataframe df pre = .ok ())
    (hc : lookupCol df c = none) :
    Polars.validate_dataframe df (pre ++ (c, ann) :: post) =
      .error (.missingColumn c) := by
  induction pre with
  | nil =>
    rw [List.nil_append]
    show stopOnError (Polars.check_column df c ann)
      (Polars.validate_dataframe df post) = .error (.missingColumn c)
    rw [pl_check_column_none df c ann hc]
    rfl
  | cons p rest ih =>
    cases p with
    | mk n a =>
      rw [List.cons_append]
      show stopOnError (Polars.check_column df n a)
        (Polars.validate_dataframe df (rest ++ (c, ann) :: post)) =
        .error (.missingColumn c)
      have hpre' : stopOnError (Polars.check_column df n a)
        (Polars.validate_dataframe df rest) = .ok () := hpre
      cases hs : Polars.check_column df n a with
      | error e =>
        rw [hs] at hpre'
        exact absurd hpre' (by simp [stopOnError])
      | ok u =>
        rw [hs] at hpre'
        simp only [stopOnError] at hpre' ⊢
        exact ih hpre'

theorem pl_validate_range_eq_pd (values : List (Option Cell)) (lo hi : ℚ)
    (name : String) :
    Polars.validate_range values lo hi name =
      Pandas.validate_range values lo hi name := rfl

theorem pl_validate_unique_eq_pd (values : List (Option Cell))
    (name : String) :
    Polars.validate_unique values name =
      Pandas.validate_unique values name := rfl

theorem pl_apply_validator_ne_nullViolation (values : List (Option Cell))
    (v : Validator) (name m : String) :
    Polars.apply_validator values v name ≠ .error (.nullViolation m) := by
  cases v with
  | range lo hi =>
    show Polars.validate_range values lo hi name ≠
      .error (.nullViolation m)
    unfold Polars.validate_range
    split
    · simp
    · simp
  | unique =>
    show Polars.validate_unique values name ≠ .error (.nullViolation m)
    unfold Polars.validate_unique
    split
    · simp
    · simp

theorem pl_apply_validators_ne_nullViolation (values : List (Option Cell))
    (vs : List Validator) (name m : String) :
    Polars.apply_validators values vs name ≠ .error (.nullViolation m) := by
  induction vs with
  | nil => simp [Polars.apply_validators]
  | cons v rest ih =>
    show stopOnError (Polars.apply_validator values v name)
      (Polars.apply_validators values rest name) ≠
      .error (.nullViolation m)
    cases hv : Polars.apply_validator values v name with
    | error e =>
      simp only [stopOnError]
      intro hcontra
      exact pl_apply_validator_ne_nullViolation values v name m
        (by rw [hv, hcontra])
    | ok u =>
      simp only [stopOnError]
      exact ih

/-- A cell list with no string entries (the numeric columns the `Range`
validator is meant for; comparing a string column against numeric bounds is
a library-level comparison error in both backends, outside the range
check's contract). -/
def cell_is_numeric_or_null : Option Cell → Bool
  | some (.str _) => false
  | _ => true

theorem pd_validate_range_error_iff (values : List (Option Cell))
    (lo hi : ℚ) (name : String)
    (hnum : ∀ v ∈ values, cell_is_numeric_or_null v = true) :
    Pandas.validate_range values lo hi name =
      .error (.rangeViolation name lo hi) ↔
    ∃ q : ℚ, some (Cell.num q) ∈ values ∧ (q < lo ∨ hi < q) := by
  unfold Pandas.validate_range
  by_cases hcond : (series_lt_any values lo || series_gt_any values hi) = true
  · rw [if_pos hcond]
    constructor
    · intro _
      simp only [Bool.or_eq_true, series_lt_any, series_gt_any,
        List.any_eq_true] at hcond
      rcases hcond with ⟨v, hv, hlt⟩ | ⟨v, hv, hgt⟩
      · cases v with
        | none => simp at hlt
        | some c =>
          cases c with
          | num q =>
            simp only [cell_lt, decide_eq_true_eq] at hlt
            exact ⟨q, hv, Or.inl hlt⟩
          | str t =>
            have := hnum _ hv
            simp [cell_is_numeric_or_null] at this
      · cases v with
        | none => simp at hgt
        | some c =>
          cases c with
          | num q =>
            simp only [cell_gt, decide_eq_true_eq] at hgt
            exact ⟨q, hv, Or.inr hgt⟩
          | str t =>
            have := hnum _ hv
            simp [cell_is_numeric_or_null] at this
    · intro _
      rfl
  · rw [if_neg hcond]
    constructor
    · intro h
      exact absurd h (by simp)
    · rintro ⟨q, hq, hor⟩
      exfalso
      apply hcond
      simp only [Bool.or_eq_true, series_lt_any, series_gt_any,
        List.any_eq_true]
      rcases hor with hlt | hgt
      · exact Or.inl ⟨some (Cell.num q), hq, by simp [cell_lt, hlt]⟩
      · exact Or.inr ⟨some (Cell.num q), hq, by simp [cell_gt, hgt]⟩

theorem pd_validate_unique_error_iff (values : List (Option Cell))
    (name : String) :
    Pandas.validate_unique values name = .error (.duplicateValues name) ↔
    ¬ values.Nodup := by
  unfold Pandas.validate_unique
  by_cases h : duplicated_any values = true
  · rw [if_pos h]
    simp only [true_iff]
    exact (duplicated_any_eq_true_iff values).mp h
  · rw [if_neg h]
    constructor
    · intro hcontra
      exact absurd hcontra (by simp)
    · intro hnd
      exact absurd ((duplicated_any_eq_true_iff values).mpr hnd) h

theorem pd_optional_int_float_ok (values : List (Option Cell))
    (name : String) :
    Pandas.check_column_type ⟨Pandas.PdDtype.float64, values⟩ name
      (Ann.optional (Ann.base PyBase.int)) = .ok () := rfl

theorem pd_plain_int_float_err (values : List (Option Cell))
    (name : String) :
    Pandas.check_column_type ⟨Pandas.PdDtype.float64, values⟩ name
      (Ann.base PyBase.int) = .error (.typeMismatch name) := rfl

theorem pd_optional_str_any_dtype_ok (d : Pandas.PdDtype)
    (values : List (Option Cell)) (name : String) :
    Pandas.check_column_type ⟨d, values⟩ name
      (Ann.optional (Ann.base PyBase.str)) = .ok () := by
  show Pandas.check_column_type_core ⟨d, values⟩ name
    (Ann.base PyBase.str) [] true = .ok ()
  unfold Pandas.check_column_type_core
  cases h : Pandas.type_checkers PyBase.str ⟨d, values⟩ with
  | true => simp [h, Pandas.apply_validators]
  | false => simp [h, Pandas.isinstance_object, Pandas.apply_validators]

theorem pd_object_all_strings_str_ok (ss : List String) (name : String) :
    Pandas.check_column_type
      ⟨Pandas.PdDtype.objectD, ss.map (fun s => some (Cell.str s))⟩ name
      (Ann.base PyBase.str) = .ok () := by
  have h : Pandas.type_checkers PyBase.str
      ⟨Pandas.PdDtype.objectD, ss.map (fun s => some (Cell.str s))⟩ =
      true := by
    show Pandas.is_string_dtype
      ⟨Pandas.PdDtype.objectD, ss.map (fun s => some (Cell.str s))⟩ = true
    unfold Pandas.is_string_dtype
    simp [List.all_map, Function.comp]
  show Pandas.check_column_type_core
    ⟨Pandas.PdDtype.objectD, ss.map (fun s => some (Cell.str s))⟩ name
    (Ann.base PyBase.str) [] false = .ok ()
  unfold Pandas.check_column_type_core
  simp [h, Pandas.apply_validators]

/-! ## Claim theorems -/

/-- Claim C1: for every schema and every table in which each declared
column is present with a dtype compatible with its declared base type, no
non-nullable (non-`Optional`) column contains a null, and every attached
`Range`/`Unique` validator is satisfied, `validate_dataframe` returns
without raising, for both the pandas and the polars backend. -/
theorem spec_C1 :
    (∀ (df : List (String × Pandas.PdColumn))
      (schema : List (String × Ann Pandas.PdExt)),
      (∀ p ∈ schema, ∃ col, lookupCol df p.1 = some col ∧
        pd_column_conforms col p.2) →
      Pandas.validate_dataframe df schema = .ok ()) ∧
    (∀ (df : List (String × Polars.PlColumn))
      (schema : List (String × Ann Polars.PlDtype)),
      (∀ p ∈ schema, ∃ col, lookupCol df p.1 = some col ∧
        pl_column_conforms col p.2) →
      Polars.validate_dataframe df schema = .ok ()) :=
  ⟨pd_validate_dataframe_ok, pl_validate_dataframe_ok⟩

/-- Witness for C1: a concrete conforming schema/table pair in each
backend validates successfully. -/
theorem spec_C1_witness :
    Pandas.validate_dataframe
      [("age", ⟨Pandas.PdDtype.int64, [some (Cell.num 25), some (Cell.num 30)]⟩),
       ("email", ⟨Pandas.PdDtype.objectD, [some (Cell.str "a"), some (Cell.str "b")]⟩)]
      [("age", Ann.annotated (Ann.base PyBase.int) [Validator.range 0 150]),
       ("email", Ann.optional (Ann.base PyBase.str))] = .ok () ∧
    Polars.validate_dataframe
      [("age", ⟨Polars.PlDtype.int64, [some (Cell.num 25), some (Cell.num 30)]⟩),
       ("id", ⟨Polars.PlDtype.int64, [some (Cell.num 1), some (Cell.num 2)]⟩)]
      [("age", Ann.annotated (Ann.base PyBase.int) [Validator.range 0 150]),
       ("id", Ann.annotated (Ann.base PyBase.int) [Validator.unique])] =
      .ok () := by
  constructor
  · apply spec_C1.1
    intro p hp
    fin_cases hp
    · exact ⟨_, rfl, by decide⟩
    · exact ⟨_, rfl, by decide⟩
  · apply spec_C1.2
    intro p hp
    fin_cases hp
    · exact ⟨_, rfl, by decide⟩
    · exact ⟨_, rfl, by decide⟩

/-- Claim C2: when every column declared before `c` passes its checks and
`c` is absent from the table, `validate_dataframe` raises the
missing-column error naming exactly `c`, and the columns declared after
`c` are never examined (the result is the same whatever they are), in both
backends. -/
theorem spec_C2 :
    (∀ (df : List (String × Pandas.PdColumn))
      (pre post : List (String × Ann Pandas.PdExt)) (c : String)
      (ann : Ann Pandas.PdExt),
      Pandas.validate_dataframe df pre = .ok () →
      lookupCol df c = none →
      Pandas.validate_dataframe df (pre ++ (c, ann) :: post) =
        .error (.missingColumn c)) ∧
    (∀ (df : List (String × Polars.PlColumn))
      (pre post : List (String × Ann Polars.PlDtype)) (c : String)
      (ann : Ann Polars.PlDtype),
      Polars.validate_dataframe df pre = .ok () →
      lookupCol df c = none →
      Polars.validate_dataframe df (pre ++ (c, ann) :: post) =
        .error (.missingColumn c)) :=
  ⟨pd_validate_append_missing, pl_validate_append_missing⟩

/-- Witness for C2: a concrete table missing column `b` is rejected with
the missing-column error naming `b`, whatever follows `b` in the schema. -/
theorem spec_C2_witness :
    Pandas.validate_dataframe
      [("a", ⟨Pandas.PdDtype.int64, [some (Cell.num 1)]⟩)]
      ([("a", Ann.base PyBase.int)] ++
        ("b", Ann.base PyBase.int) :: [("z", Ann.base PyBase.str)]) =
      .error (.missingColumn "b") ∧
    Polars.validate_dataframe
      [("a", ⟨Polars.PlDtype.int64, [some (Cell.num 1)]⟩)]
      ([("a", Ann.base PyBase.int)] ++
        ("b", Ann.base PyBase.int) :: [("z", Ann.base PyBase.str)]) =
      .error (.missingColumn "b") :=
  ⟨spec_C2.1 _ _ _ "b" _ (by decide) (by decide),
   spec_C2.2 _ _ _ "b" _ (by decide) (by decide)⟩

/-- Claim C3: in the polars backend, a column declared non-`Optional` with
a supported base type whose dtype check passes fails with the
non-optional-null error naming the column as soon as it contains a null;
a column declared `Optional` never produces that error. -/
theorem spec_C3 :
    (∀ (col : Polars.PlColumn) (name : String) (ann : Ann Polars.PlDtype)
      (b : PyBase) (vs : List Validator),
      extract_type_and_validators ann = (Ann.base b, vs, false) →
      Polars.type_checkers b col.dtype = true →
      0 < Polars.null_count col.values →
      Polars.check_column_type col name ann =
        .error (.nullViolation name)) ∧
    (∀ (col : Polars.PlColumn) (name : String) (ann : Ann Polars.PlDtype)
      (base : Ann Polars.PlDtype) (vs : List Validator),
      extract_type_and_validators ann = (base, vs, true) →
      Polars.check_column_type col name ann ≠
        .error (.nullViolation name)) := by
  constructor
  · intro col name ann b vs hex hchk hnull
    unfold Polars.check_column_type
    rw [hex]
    show Polars.check_column_type_core col name (Ann.base b) vs false =
      .error (.nullViolation name)
    unfold Polars.check_column_type_core
    simp [hchk, hnull]
  · intro col name ann base vs hex
    unfold Polars.check_column_type
    rw [hex]
    show Polars.check_column_type_core col name base vs true ≠
      .error (.nullViolation name)
    cases base with
    | base b =>
      unfold Polars.check_column_type_core
      cases hc : Polars.type_checkers b col.dtype with
      | true =>
        simp only [hc, Bool.not_true, Bool.false_and, if_true,
          Bool.false_eq_true, if_false]
        exact pl_apply_validators_ne_nullViolation col.values vs name name
      | false => simp [hc]
    | native d =>
      unfold Polars.check_column_type_core
      cases hc : Polars.class_eq col.dtype d with
      | true =>
        simp only [hc, if_true]
        exact pl_apply_validators_ne_nullViolation col.values vs name name
      | false => simp [hc]
    | annotated inner ivs => simp [Polars.check_column_type_core]
    | optional inner => simp [Polars.check_column_type_core]

/-- Witness for C3: a concrete non-`Optional` int column containing a null
is rejected with the non-optional-null error, while the same column
declared `Optional[int]` is not. -/
theorem spec_C3_witness :
    Polars.check_column_type
      ⟨Polars.PlDtype.int64, [some (Cell.num 1), none]⟩ "a"
      (Ann.base PyBase.int) = .error (.nullViolation "a") ∧
    Polars.check_column_type
      ⟨Polars.PlDtype.int64, [some (Cell.num 1), none]⟩ "a"
      (Ann.optional (Ann.base PyBase.int)) ≠
      .error (.nullViolation "a") :=
  ⟨spec_C3.1 _ "a" _ PyBase.int [] (by decide) (by decide) (by decide),
   spec_C3.2 _ "a" _ (Ann.base PyBase.int) [] (by decide)⟩

/-- Counterexample to C4 as stated: a float64 column standing in for a
declared plain (non-`Optional`) `int` is rejected by the pandas dtype
check with a type error — the leniency branch requires `is_optional`. -/
theorem spec_C4_counterexample :
    Pandas.validate_dataframe
      [("a", ⟨Pandas.PdDtype.float64, [some (Cell.num 1)]⟩)]
      [("a", Ann.base PyBase.int)] = .error (.typeMismatch "a") := by
  decide

/-- Claim C4 as amended: the pandas float-for-int leniency applies only
when the declaration is marked `Optional` — `Optional[int]` with a float64
column passes, a plain `int` with a float64 column raises a type error;
`Optional[str]` passes whatever the dtype (the leniency test
`isinstance(col_dtype, object)` always holds); and an object column whose
values are all strings passes a plain `str` declaration through the string
dtype predicate itself, without the leniency. -/
theorem spec_C4_amended :
    (∀ (values : List (Option Cell)) (name : String),
      Pandas.check_column_type ⟨Pandas.PdDtype.float64, values⟩ name
        (Ann.optional (Ann.base PyBase.int)) = .ok ()) ∧
    (∀ (d : Pandas.PdDtype) (values : List (Option Cell)) (name : String),
      Pandas.check_column_type ⟨d, values⟩ name
        (Ann.optional (Ann.base PyBase.str)) = .ok ()) ∧
    (∀ (values : List (Option Cell)) (name : String),
      Pandas.check_column_type ⟨Pandas.PdDtype.float64, values⟩ name
        (Ann.base PyBase.int) = .error (.typeMismatch name)) ∧
    (∀ (ss : List String) (name : String),
      Pandas.check_column_type
        ⟨Pandas.PdDtype.objectD, ss.map (fun s => some (Cell.str s))⟩ name
        (Ann.base PyBase.str) = .ok ()) :=
  ⟨pd_optional_int_float_ok, pd_optional_str_any_dtype_ok,
   pd_plain_int_float_err, pd_object_all_strings_str_ok⟩

/-- Claim C5: the range check fails with the range error naming the column
and its bounds exactly when some non-null value lies strictly below the
minimum or strictly above the maximum (bounds inclusive, nulls ignored),
in both backends, for columns of numeric values. -/
theorem spec_C5 :
    ∀ (values : List (Option Cell)) (name : String) (lo hi : ℚ),
      (∀ v ∈ values, cell_is_numeric_or_null v = true) →
      ((Pandas.validate_range values lo hi name =
          .error (.rangeViolation name lo hi)) ↔
        ∃ q : ℚ, some (Cell.num q) ∈ values ∧ (q < lo ∨ hi < q)) ∧
      ((Polars.validate_range values lo hi name =
          .error (.rangeViolation name lo hi)) ↔
        ∃ q : ℚ, some (Cell.num q) ∈ values ∧ (q < lo ∨ hi < q)) := by
  intro values name lo hi hnum
  refine ⟨pd_validate_range_error_iff values lo hi name hnum, ?_⟩
  rw [pl_validate_range_eq_pd]
  exact pd_validate_range_error_iff values lo hi name hnum

/-- Witness for C5: for bounds `[0, 150]` on the column
`[-5, 150, null]`, the failure condition is witnessed by `-5` (below the
minimum), while `150` sits on the inclusive bound and the null is
ignored. -/
theorem spec_C5_witness :
    ((Pandas.validate_range [some (Cell.num (-5)), some (Cell.num 150),
        none] 0 150 "age" = .error (.rangeViolation "age" 0 150)) ↔
      ∃ q : ℚ, some (Cell.num q) ∈
        [some (Cell.num (-5)), some (Cell.num 150), none] ∧
        (q < 0 ∨ 150 < q)) ∧
    ((Polars.validate_range [some (Cell.num (-5)), some (Cell.num 150),
        none] 0 150 "age" = .error (.rangeViolation "age" 0 150)) ↔
      ∃ q : ℚ, some (Cell.num q) ∈
        [some (Cell.num (-5)), some (Cell.num 150), none] ∧
        (q < 0 ∨ 150 < q)) :=
  spec_C5 [some (Cell.num (-5)), some (Cell.num 150), none] "age" 0 150
    (by decide)

/-- Counterexample to C6 as stated: the column `[1, null, null]` has no
duplicated non-null entry (its non-null part `[1]` is duplicate-free), yet
both backends' unique check rejects it — multiple nulls are treated as
duplicates of each other by `duplicated()`/`is_duplicated()`. -/
theorem spec_C6_counterexample :
    Pandas.validate_unique [some (Cell.num 1), none, none] "u" =
      .error (.duplicateValues "u") ∧
    Polars.validate_unique [some (Cell.num 1), none, none] "u" =
      .error (.duplicateValues "u") ∧
    List.Nodup (List.filterMap id [some (Cell.num 1), none, none]) :=
  ⟨by decide, by decide, by decide⟩

/-- Claim C6 as amended: the unique check fails citing duplicate values
exactly when some entry occurs more than once with null entries comparing
equal to each other — `[1,2,2,3]` fails, `[1,2,3,4]` passes, and a column
with two nulls also fails — in both backends. -/
theorem spec_C6_amended :
    (∀ (values : List (Option Cell)) (name : String),
      ((Pandas.validate_unique values name =
        .error (.duplicateValues name)) ↔ ¬ values.Nodup) ∧
      ((Polars.validate_unique values name =
        .error (.duplicateValues name)) ↔ ¬ values.Nodup)) ∧
    Pandas.validate_unique [some (Cell.num 1), some (Cell.num 2),
      some (Cell.num 2), some (Cell.num 3)] "u" =
      .error (.duplicateValues "u") ∧
    Pandas.validate_unique [some (Cell.num 1), some (Cell.num 2),
      some (Cell.num 3), some (Cell.num 4)] "u" = .ok () ∧
    Polars.validate_unique [some (Cell.num 1), some (Cell.num 2),
      some (Cell.num 2), some (Cell.num 3)] "u" =
      .error (.duplicateValues "u") ∧
    Polars.validate_unique [some (Cell.num 1), some (Cell.num 2),
      some (Cell.num 3), some (Cell.num 4)] "u" = .ok () := by
  refine ⟨?_, by decide, by decide, by decide, by decide⟩
  intro values name
  refine ⟨pd_validate_unique_error_iff values name, ?_⟩
  rw [pl_validate_unique_eq_pd]
  exact pd_validate_unique_error_iff values name

/-- Counterexample to C7 as stated: `Optional[Annotated[int, Range(0,100)]]`
does not decompose to base type `int` with validators `[Range(0,100)]` and
nullable true — the decomposer strips the `Annotated` wrapper only when it
is outermost, and returns as soon as it sees the `Optional` union. -/
theorem spec_C7_counterexample :
    ¬ (extract_type_and_validators
        (Ann.optional (Ann.annotated (Ann.base PyBase.int)
          [Validator.range 0 100]) : Ann Polars.PlDtype) =
      (Ann.base PyBase.int, [Validator.range 0 100], true)) := by
  decide

/-- Claim C7 as amended: the decomposer unwraps one metadata layer and
then one optional layer, with no fixed-point iteration and no not-required
unwrapping — `Annotated[Optional[int], Range(0,100)]` decomposes to
`(int, [Range(0,100)], true)`, but `Optional[Annotated[int, Range(0,100)]]`
decomposes to base type `Annotated[int, Range(0,100)]` with no validators,
and a column so declared is rejected as an unsupported type by both
backends. -/
theorem spec_C7_amended :
    (extract_type_and_validators
        (Ann.annotated (Ann.optional (Ann.base PyBase.int))
          [Validator.range 0 100] : Ann Polars.PlDtype) =
      (Ann.base PyBase.int, [Validator.range 0 100], true)) ∧
    (extract_type_and_validators
        (Ann.optional (Ann.annotated (Ann.base PyBase.int)
          [Validator.range 0 100]) : Ann Polars.PlDtype) =
      (Ann.annotated (Ann.base PyBase.int) [Validator.range 0 100], [],
        true)) ∧
    (extract_type_and_validators
        (Ann.annotated (Ann.optional (Ann.base PyBase.int))
          [Validator.range 0 100] : Ann Pandas.PdExt) =
      (Ann.base PyBase.int, [Validator.range 0 100], true)) ∧
    (extract_type_and_validators
        (Ann.optional (Ann.annotated (Ann.base PyBase.int)
          [Validator.range 0 100]) : Ann Pandas.PdExt) =
      (Ann.annotated (Ann.base PyBase.int) [Validator.range 0 100], [],
        true)) ∧
    (∀ (col : Polars.PlColumn) (name : String),
      Polars.check_column_type col name
        (Ann.optional (Ann.annotated (Ann.base PyBase.int)
          [Validator.range 0 100])) = .error .unsupportedType) ∧
    (∀ (col : Pandas.PdColumn) (name : String),
      Pandas.check_column_type col name
        (Ann.optional (Ann.annotated (Ann.base PyBase.int)
          [Validator.range 0 100])) = .error .unsupportedType) :=
  ⟨by decide, by decide, by decide, by decide,
   fun col name => rfl, fun col name => rfl⟩

/-- Claim C8 (strict mode, modelled from the spec for the wrapper module
absent from `src/`): with schema `{a: int}` and table
`{a: [1], extra: ["x"]}`, validation passes when `strict` is false and
fails with the unexpected-columns error naming `extra` when `strict` is
true; a failing declared column is reported instead of the extra column,
so the unexpected-column check runs only after the declared columns
pass. -/
theorem spec_C8 :
    Polars.validate_dataframe_strict
      [("a", ⟨Polars.PlDtype.int64, [some (Cell.num 1)]⟩),
       ("extra", ⟨Polars.PlDtype.utf8, [some (Cell.str "x")]⟩)]
      [("a", Ann.base PyBase.int)] false = .ok () ∧
    Polars.validate_dataframe_strict
      [("a", ⟨Polars.PlDtype.int64, [some (Cell.num 1)]⟩),
       ("extra", ⟨Polars.PlDtype.utf8, [some (Cell.str "x")]⟩)]
      [("a", Ann.base PyBase.int)] true =
      .error (.unexpectedColumns ["extra"]) ∧
    Polars.validate_dataframe_strict
      [("a", ⟨Polars.PlDtype.utf8, [some (Cell.str "y")]⟩),
       ("extra", ⟨Polars.PlDtype.utf8, [some (Cell.str "x")]⟩)]
      [("a", Ann.base PyBase.int)] true = .error (.typeMismatch "a") :=
  ⟨by decide, by decide, by decide⟩

/-- Claim C9: the str leniency test `isinstance(col_dtype, object)` holds
for every dtype, so the pandas backend never raises a type-mismatch error
for an `Optional[str]` column: the check succeeds whatever the column's
dtype and values. -/
theorem spec_C9 :
    (∀ d : Pandas.PdDtype, Pandas.isinstance_object d = true) ∧
    (∀ (d : Pandas.PdDtype) (values : List (Option Cell)) (name : String),
      Pandas.check_column_type ⟨d, values⟩ name
        (Ann.optional (Ann.base PyBase.str)) = .ok ()) :=
  ⟨fun _ => rfl, pd_optional_str_any_dtype_ok⟩

/-- Claim C10: the polars datetime compatibility predicate accepts any
dtype carrying a `time_unit` attribute (and every `Datetime` variant), so
a `Duration` column satisfies a declared `datetime` base type and the
dtype check passes. -/
theorem spec_C10 :
    (∀ d : Polars.PlDtype, Polars.has_time_unit_attr d = true →
      Polars.type_checkers PyBase.datetime d = true) ∧
    (∀ tu : Polars.TimeUnit, Polars.type_checkers PyBase.datetime
      (Polars.PlDtype.datetime tu) = true) ∧
    (∀ tu : Polars.TimeUnit, Polars.type_checkers PyBase.datetime
      (Polars.PlDtype.duration tu) = true) ∧
    Polars.validate_dataframe
      [("t", ⟨Polars.PlDtype.duration Polars.TimeUnit.us,
        [some (Cell.num 5)]⟩)]
      [("t", Ann.base PyBase.datetime)] = .ok () := by
  refine ⟨?_, fun tu => rfl, fun tu => rfl, by decide⟩
  intro d h
  cases d <;> first | rfl | exact absurd h (by decide)

/-- Witness for C10: the `Duration` dtype with nanosecond time unit passes
the declared-`datetime` dtype check. -/
theorem spec_C10_witness :
    Polars.type_checkers PyBase.datetime
      (Polars.PlDtype.duration Polars.TimeUnit.ns) = true :=
  spec_C10.1 (Polars.PlDtype.duration Polars.TimeUnit.ns) (by decide)
